import Mathlib

/-
Verification development for the pqs library (PyQt-SQLAlchemy field binding).

Shallow embedding of the core of the library:
  * pqs/binder.py     — PQSFieldBinder: the update / reset / enable protocol
  * pqs/binders_sample.py — QLineEditBinder: the concrete line-edit channel
  * pqs/editor.py     — PQSEditUI: save / commit / validate and binder lookup
  * pqs/query.py      — PQSOperator registry and PQSQueryUI.generate_query

Python values that cross the binder boundary are modelled by the type
PyValue (Python None, strings, and integers); a SQLAlchemy attribute
assignment with a validator is modelled as a function from a raw value to
an optional normalized value (a SQLAlchemy validates hook either returns
the value to store or raises, which aborts the assignment).  Stateful
methods become explicit state-passing functions; a method that raises an
exception that escapes to its caller is modelled with Option / an error
value in its result.
-/

namespace PQS

/-- A Python value crossing the binder boundary: None, a string or an int. -/
inductive PyValue where
  | none : PyValue
  | str : String → PyValue
  | int : Int → PyValue
deriving DecidableEq, Repr

/-- The external input widget seen through the gui_value property of a
binder: a getter and a setter over the widget's state of type gamma. -/
structure Channel (γ : Type) where
  get : γ → PyValue
  set : PyValue → γ → γ

/-- Immutable configuration of one PQSFieldBinder.

validator models the SQLAlchemy setattr on the bound model attribute:
Option.some w means the assignment succeeds and stores the normalized
value w; Option.none means the model's validates hook raised, leaving the
attribute unchanged (binder.py line 300, setattr in update).
disabled is the _disabled slot, fixed at construction.  hasSaveSignal
tells whether signal_save returns a signal (base returns None;
QLineEditBinder returns returnPressed).  resetValue is the reset_value
property (None in the base class). -/
structure Binder (γ : Type) where
  chan : Channel γ
  validator : PyValue → Option PyValue
  disabled : Bool
  hasSaveSignal : Bool
  resetValue : PyValue

/-- Visual validity mark of the widget (mark_as_valid / mark_as_invalid /
mark_as_not_validated stylesheets); unmarked before any marking. -/
inductive Mark where
  | unmarked : Mark
  | valid : Mark
  | invalid : Mark
  | notValidated : Mark
deriving DecidableEq, Repr

/-- Event hooks reported by a binder, in call order. -/
inductive BEvent where
  | onValid : BEvent
  | onInvalid : BEvent
  | onResetSuccess : BEvent
  | onResetFail : BEvent
  | onReset : BEvent
deriving DecidableEq, Repr

/-- Mutable state touched by one binder: the bound model attribute, the
widget state, the visual mark, the autoupdate flag, which signals are
connected, whether the widget accepts edits, and the hook log. -/
structure BState (γ : Type) where
  modelValue : PyValue
  gui : γ
  mark : Mark
  autoupdate : Bool
  autoupdateConnected : Bool
  saveConnected : Bool
  editEnabled : Bool
  events : List BEvent

/-- Appends one reported hook to the binder's log. -/
def logEvent {γ : Type} (s : BState γ) (e : BEvent) : BState γ :=
  { s with events := s.events ++ [e] }

/-- enable_autoupdate: sets the autoupdate flag unless the binder is
permanently disabled (binder.py lines 124-127). -/
def enable_autoupdate {γ : Type} (b : Binder γ) (s : BState γ) : BState γ :=
  if !b.disabled then { s with autoupdate := true } else s

/-- disable_autoupdate: clears the autoupdate flag unless the binder is
permanently disabled (binder.py lines 129-132). -/
def disable_autoupdate {γ : Type} (b : Binder γ) (s : BState γ) : BState γ :=
  if !b.disabled then { s with autoupdate := false } else s

/-- connect_autoupdate: connects signal_autoupdate to its slot unless the
binder is permanently disabled (binder.py lines 156-159). -/
def connect_autoupdate {γ : Type} (b : Binder γ) (s : BState γ) : BState γ :=
  if !b.disabled then { s with autoupdateConnected := true } else s

/-- disconnect_autoupdate (binder.py lines 161-164). -/
def disconnect_autoupdate {γ : Type} (b : Binder γ) (s : BState γ) : BState γ :=
  if !b.disabled then { s with autoupdateConnected := false } else s

/-- connect_save: connects signal_save to the UI save slot if the signal
exists and the binder is not permanently disabled (binder.py 166-170). -/
def connect_save {γ : Type} (b : Binder γ) (s : BState γ) : BState γ :=
  if b.hasSaveSignal && !b.disabled then { s with saveConnected := true } else s

/-- disconnect_save (binder.py lines 172-176). -/
def disconnect_save {γ : Type} (b : Binder γ) (s : BState γ) : BState γ :=
  if b.hasSaveSignal && !b.disabled then { s with saveConnected := false } else s

/-- update (binder.py lines 271-308): substitutes the gui value when the
passed value is None, then tries setattr on the model.  On success marks
valid, reports on_valid and returns True; when the validator raises,
marks invalid, reports on_invalid and returns False.  The exception never
escapes.  (The finally clause calls the owning UI's update_status; that is
accounted for at the editor call sites, since it only reads session state.) -/
def update {γ : Type} (b : Binder γ) (s : BState γ) (value : PyValue) :
    Bool × BState γ :=
  let v := if value = PyValue.none then b.chan.get s.gui else value
  match b.validator v with
  | Option.some w =>
      (true, logEvent { s with modelValue := w, mark := Mark.valid } BEvent.onValid)
  | Option.none =>
      (false, logEvent { s with mark := Mark.invalid } BEvent.onInvalid)

/-- The model_value setter (binder.py lines 263-269): alias of update,
discarding the returned Bool — so it never raises. -/
def set_model_value {γ : Type} (b : Binder γ) (s : BState γ) (value : PyValue) :
    BState γ :=
  (update b s value).2

/-- reset (binder.py lines 310-337): assigns reset_value through the
model_value setter inside a try block.  Because set_model_value routes
through update, which catches the validator's exception internally, the
try body cannot raise, so the except branch (_on_reset_fail) is
unreachable: _on_reset_success is always reported, then _on_reset. -/
def reset {γ : Type} (b : Binder γ) (s : BState γ) : BState γ :=
  let s1 := set_model_value b s b.resetValue
  logEvent (logEvent s1 BEvent.onResetSuccess) BEvent.onReset

/-- update_from_gui (binder.py lines 242-251): for a non-disabled binder,
reads the gui value, updates, and resets when the update fails. -/
def update_from_gui {γ : Type} (b : Binder γ) (s : BState γ) : BState γ :=
  if !b.disabled then
    let value := b.chan.get s.gui
    let r := update b s value
    if r.1 then r.2 else reset b r.2
  else s

/-- update_to_gui (binder.py lines 253-255): pushes the model value into
the widget through the gui_value setter. -/
def update_to_gui {γ : Type} (b : Binder γ) (s : BState γ) : BState γ :=
  { s with gui := b.chan.set s.modelValue s.gui }

/-- disable_edit (binder.py lines 371-377): guarded by the permanent flag. -/
def disable_edit {γ : Type} (b : Binder γ) (s : BState γ) : BState γ :=
  if !b.disabled then { s with editEnabled := false } else s

/-- enable_edit (binder.py lines 397-403): guarded by the permanent flag. -/
def enable_edit {γ : Type} (b : Binder γ) (s : BState γ) : BState γ :=
  if !b.disabled then { s with editEnabled := true } else s

/-- disable (binder.py lines 379-386): disables edit and autoupdate
together, a no-op for a permanently disabled binder. -/
def disable {γ : Type} (b : Binder γ) (s : BState γ) : BState γ :=
  if !b.disabled then disable_autoupdate b (disable_edit b s) else s

/-- enable (binder.py lines 405-412): enables edit and autoupdate
together, a no-op for a permanently disabled binder. -/
def enable {γ : Type} (b : Binder γ) (s : BState γ) : BState γ :=
  if !b.disabled then enable_autoupdate b (enable_edit b s) else s

/-- PQSFieldBinder.__init__ (binder.py lines 77-116).  The arguments mirror
the constructor: disabledArg is the disabled keyword (None means derive it
from is_edit_disabled, i.e. the widget's initial read-only state),
autoupdateArg the autoupdate keyword, cAu / cSv the connect_autoupdate and
connect_save keywords.  Returns the binder configuration together with the
initial state after the constructor body ran. -/
def mkBinder {γ : Type} (chan : Channel γ) (validator : PyValue → Option PyValue)
    (hasSaveSignal : Bool) (guiReadOnly : Bool) (disabledArg : Option Bool)
    (autoupdateArg cAu cSv : Bool) (gui0 : γ) (model0 : PyValue) :
    Binder γ × BState γ :=
  let dis := disabledArg.getD guiReadOnly
  let b : Binder γ :=
    { chan := chan, validator := validator, disabled := dis,
      hasSaveSignal := hasSaveSignal, resetValue := PyValue.none }
  let s0 : BState γ :=
    { modelValue := model0, gui := gui0, mark := Mark.unmarked,
      autoupdate := autoupdateArg, autoupdateConnected := false,
      saveConnected := false, editEnabled := !guiReadOnly, events := [] }
  let s1 := if dis then { s0 with editEnabled := false } else s0
  let s2 := if cAu then connect_autoupdate b s1 else s1
  let s3 := if cSv then connect_save b s2 else s2
  (b, s3)

/-- QLineEditBinder.DISABLED_MESSAGE (binders_sample.py line 15). -/
def DISABLED_MESSAGE : String := "<<<Auto>>>"

/-- QLineEditBinder.gui_value getter (binders_sample.py lines 20-38):
empty text yields Python None (the source falls off the end of the
function there), the disabled placeholder also yields None, any other
text is returned as a string. -/
def lineEditGet (text : String) : PyValue :=
  if text.length ≠ 0 then
    if text = DISABLED_MESSAGE then PyValue.none else PyValue.str text
  else PyValue.none

/-- Python str() coercion applied by the gui_value setter to non-string,
non-None values. -/
def pyStr : PyValue → String
  | PyValue.none => "None"
  | PyValue.str s => s
  | PyValue.int n => toString n

/-- QLineEditBinder.gui_value setter (binders_sample.py lines 40-62):
None becomes the disabled placeholder when the binder is disabled and the
empty string otherwise; non-strings are coerced with str(). -/
def lineEditSet (disabled : Bool) (newValue : PyValue) (_text : String) : String :=
  match newValue with
  | PyValue.none => if disabled then DISABLED_MESSAGE else ""
  | PyValue.str s => s
  | v => pyStr v

/-- The line-edit channel of QLineEditBinder, closed over its _disabled slot. -/
def lineEditChannel (disabled : Bool) : Channel String :=
  { get := lineEditGet, set := fun v t => lineEditSet disabled v t }

/-- Python's membership test of a single character in a string. -/
def strContainsChar (s : String) (c : Char) : Bool := s.data.contains c

/-- User.validate_email from the sample model (test/__main__.py lines
47-52): None raises (mandatory), a string must contain an at sign, and a
non-string makes the membership test itself raise. -/
def validate_email : PyValue → Option PyValue
  | PyValue.str s => if strContainsChar s (Char.ofNat 64) then Option.some (PyValue.str s)
      else Option.none
  | _ => Option.none

/-- A validator that accepts every value unchanged. -/
def acceptAll : PyValue → Option PyValue := fun v => Option.some v

/-! ## Editor (pqs/editor.py, PQSEditUI) -/

/-- One call into the SQLAlchemy session that mutates or touches the store. -/
inductive SessionOp where
  | add : SessionOp
  | commit : SessionOp
  | rollback : SessionOp
  | flush : SessionOp
  | delete : SessionOp
  | refresh : SessionOp
deriving DecidableEq, Repr

/-- Errors surfaced by the editor (pqs/errors.py) together with Python's
own TypeError, which the broken validate_binders classmethod raises. -/
inductive PQSError where
  | formFieldsNotValid : PQSError
  | bindersNotValid : PQSError
  | bindersNotFound : PQSError
  | typeError : PQSError
deriving DecidableEq, Repr

/-- State of one PQSEditUI: its binders (configuration and state pairs),
the log of session calls issued so far, whether sqla_inspect on the model
currently reports deleted, whether the session's commit() raises when
called (the external failure the error-handling spec is about), and how
many times update_status ran (update_status only reads the session). -/
structure EditorState (γ : Type) where
  binders : List (Binder γ × BState γ)
  ops : List SessionOp
  statusDeleted : Bool
  commitRaises : Bool
  statusUpdates : Nat

/-- Records one session call. -/
def logOp {γ : Type} (ed : EditorState γ) (op : SessionOp) : EditorState γ :=
  { ed with ops := ed.ops ++ [op] }

/-- update_status (editor.py lines 515-534): inspects the model's session
status and adjusts buttons and the status label; it performs no session
mutation, so the model only counts the call. -/
def update_status {γ : Type} (ed : EditorState γ) : EditorState γ :=
  { ed with statusUpdates := ed.statusUpdates + 1 }

/-- The per-binder body of update_to_gui with skip_validate=True
(editor.py lines 400-407): disable, push the model value to the widget,
mark not validated, enable.  No validator runs and no hook is reported. -/
def binderReloadSkip {γ : Type} (p : Binder γ × BState γ) : Binder γ × BState γ :=
  let s1 := disable p.1 p.2
  let s2 := update_to_gui p.1 s1
  let s3 := { s2 with mark := Mark.notValidated }
  (p.1, enable p.1 s3)

/-- The per-binder body of update_to_gui with skip_validate=False
(editor.py lines 400-407): disable, push the model value to the widget,
then update() — which re-reads the widget and re-validates — then enable. -/
def binderRevalidate {γ : Type} (p : Binder γ × BState γ) : Binder γ × BState γ :=
  let s1 := disable p.1 p.2
  let s2 := update_to_gui p.1 s1
  let s3 := (update p.1 s2 PyValue.none).2
  (p.1, enable p.1 s3)

/-- PQSEditUI.update_to_gui (editor.py lines 392-407).  In the
skip_validate=False case each binder's update() triggers one
update_status call from its finally clause. -/
def edUpdateToGui {γ : Type} (skip : Bool) (ed : EditorState γ) : EditorState γ :=
  { ed with
    binders := ed.binders.map (fun p =>
      if skip then binderReloadSkip p else binderRevalidate p),
    statusUpdates := ed.statusUpdates +
      (if skip then 0 else ed.binders.length) }

/-- PQSEditUI.commit (editor.py lines 456-477): tries session.commit();
when it raises, the exception is caught, a flag is set and session.rollback()
runs — the exception is not re-raised.  When it succeeds, all fields are
reloaded into the GUI in skip-validate mode.  Either way update_status runs
last.  The first component is the exception escaping to the caller: always
none, because the except clause swallows the commit error. -/
def commit_ed {γ : Type} (ed : EditorState γ) : Option PQSError × EditorState γ :=
  let ed1 := logOp ed SessionOp.commit
  if ed.commitRaises then
    (Option.none, update_status (logOp ed1 SessionOp.rollback))
  else
    (Option.none, update_status (edUpdateToGui true ed1))

/-- The result of binder i's update() call inside save (with its default
None argument, hence reading the widget). -/
def updOk {γ : Type} (p : Binder γ × BState γ) : Bool :=
  (update p.1 p.2 PyValue.none).1

/-- PQSEditUI.save (editor.py lines 421-454).  In delete mode (sqla status
deleted) it just commits.  Otherwise every binder's update() runs — each
one also firing update_status from its finally clause — and
fields_are_valid collects whether all succeeded; only then are
session.add and commit issued, else PQSFormFieldsNotValidError is raised
(first component some).  The source's single loop both mutates each
binder and accumulates the flag; binder states are independent, so the
two maps below compute the same thing. -/
def save_ed {γ : Type} (ed : EditorState γ) : Option PQSError × EditorState γ :=
  if ed.statusDeleted then commit_ed ed
  else
    let binders1 := ed.binders.map (fun p => (p.1, (update p.1 p.2 PyValue.none).2))
    let fields_are_valid := ed.binders.all (fun p => updOk p)
    let ed1 := { ed with
      binders := binders1,
      statusUpdates := ed.statusUpdates + ed.binders.length }
    if fields_are_valid then commit_ed (logOp ed1 SessionOp.add)
    else (Option.some PQSError.formFieldsNotValid, ed1)

/-- PQSEditUI.validate (editor.py lines 479-481): calls
update_to_gui(False). -/
def validate_ed {γ : Type} (ed : EditorState γ) : EditorState γ :=
  edUpdateToGui false ed

/-! ## Binder lookup (editor.py, lookup_binders / validate_binders) -/

/-- GUI_BINDERS keys (editor.py lines 89-92): widget class names that have
a default binder. -/
def GUI_BINDERS : List String := ["QLineEdit", "QDateEdit"]

/-- One attribute found on the form ui object by dir(): its attribute name
and its class name. -/
structure FormAttr where
  name : String
  className : String
deriving DecidableEq, Repr

/-- Step 3 of lookup_binders (editor.py lines 312-333): for each form
attribute whose class has a default binder, strip the class name minus its
first character from the attribute name to guess the model attribute, and
keep it only when the model exposes that attribute (probed by getattr). -/
def guessBinders (modelHasAttr : String → Bool) (attrs : List FormAttr) :
    List String :=
  (attrs.filter (fun a => GUI_BINDERS.contains a.className)).filterMap (fun a =>
    let fieldSuffix := a.className.drop 1
    let nm := a.name.replace fieldSuffix ""
    if modelHasAttr nm then Option.some nm else Option.none)

/-- Outcome of PQSEditUI.lookup_binders. -/
inductive LookupResult where
  | noop : LookupResult
  | raised : PQSError → LookupResult
  | guessed : List String → LookupResult
deriving DecidableEq, Repr

/-- PQSEditUI.lookup_binders (editor.py lines 281-338).  alreadySet is
whether self._binders is not None; explicitBinders is getattr(form_ui,
"binders", None), each element recorded as whether it is a PQSFieldBinder
instance.  When an explicit list is present the code calls
self.validate_binders(binders); validate_binders (editor.py lines
265-279) is declared @classmethod but its single parameter receives the
class, so the list argument is an extra positional argument and the call
raises TypeError before the validation body can run — and even if it
returned, the code below lacks a return statement and would fall through
to step 3, overwriting self._binders with the guessed list. -/
def lookup_binders (alreadySet : Bool) (explicitBinders : Option (List Bool))
    (modelHasAttr : String → Bool) (attrs : List FormAttr) : LookupResult :=
  if alreadySet then LookupResult.noop
  else
    match explicitBinders with
    | Option.some _ => LookupResult.raised PQSError.typeError
    | Option.none =>
        let guessed := guessBinders modelHasAttr attrs
        if guessed.length = 0 then LookupResult.raised PQSError.bindersNotFound
        else LookupResult.guessed guessed

/-! ## Operator registry (pqs/query.py, PQSOperator) -/

/-- One operator class created with the PQSOperator metaclass: its class
name, its display name, the ColumnOperators method name it dispatches to,
and the id assigned at registration. -/
structure OpClass where
  className : String
  dispName : String
  opMethod : String
  id : Nat
deriving DecidableEq, Repr

/-- The PQSOperator metaclass registry: the class-level listing and the
map_by_name dict (all registered class names are distinct, so dict
assignment coincides with appending). -/
structure OperatorRegistry where
  listing : List OpClass
  mapByName : List (String × OpClass)
deriving DecidableEq, Repr

/-- PQSOperator.__new__ (query.py lines 283-295): the new class's id is the
length of the listing before appending; the class is appended to the
listing and recorded in map_by_name.  Returns the grown registry and the
created class. -/
def registerOperator (r : OperatorRegistry) (className dispName opMethod : String) :
    OperatorRegistry × OpClass :=
  let newCls : OpClass :=
    { className := className, dispName := dispName, opMethod := opMethod,
      id := r.listing.length }
  ({ listing := r.listing ++ [newCls],
     mapByName := r.mapByName ++ [(className, newCls)] }, newCls)

/-- The registry before any operator class is defined. -/
def reg0 : OperatorRegistry := { listing := [], mapByName := [] }

/-- The twelve operator class definitions of query.py lines 298-367, in
source order. -/
def step1 : OperatorRegistry × OpClass :=
  registerOperator reg0 "PQSOperatorLike" "~=" "like"
def step2 : OperatorRegistry × OpClass :=
  registerOperator step1.1 "PQSOperatorILike" "~= (Aa)" "ilike"
def step3 : OperatorRegistry × OpClass :=
  registerOperator step2.1 "PQSOperatorEquals" "==" "__eq__"
def step4 : OperatorRegistry × OpClass :=
  registerOperator step3.1 "PQSOperatorNotEquals" "!=" "__ne__"
def step5 : OperatorRegistry × OpClass :=
  registerOperator step4.1 "PQSOperatorGreater" ">" "__gt__"
def step6 : OperatorRegistry × OpClass :=
  registerOperator step5.1 "PQSOperatorGreaterEquals" ">=" "__ge__"
def step7 : OperatorRegistry × OpClass :=
  registerOperator step6.1 "PQSOperatorLess" "<" "__lt__"
def step8 : OperatorRegistry × OpClass :=
  registerOperator step7.1 "PQSOperatorLessEquals" "<=" "__le__"
def step9 : OperatorRegistry × OpClass :=
  registerOperator step8.1 "PQSOperatorContains" "c" "in_"
def step10 : OperatorRegistry × OpClass :=
  registerOperator step9.1 "PQSOperatorNotContains" "nc" "notin_"
def step11 : OperatorRegistry × OpClass :=
  registerOperator step10.1 "PQSOperatorIsNull" "=0" "is_"
def step12 : OperatorRegistry × OpClass :=
  registerOperator step11.1 "PQSOperatorIsNotNull" "!=0" "isnot"

def PQSOperatorLike : OpClass := step1.2
def PQSOperatorILike : OpClass := step2.2
def PQSOperatorIsNull : OpClass := step11.2
def PQSOperatorIsNotNull : OpClass := step12.2

/-- PQSOperator.listing after the module's class definitions ran. -/
def moduleRegistry : OperatorRegistry := step12.1

/-! ## Query builder (pqs/query.py, PQSQueryUI.generate_query) -/

/-- The filter expression operator(arg) built in step 4 of generate_query:
the chosen column, the ColumnOperators method name, its argument (none
models Python None, the unary comparison against null) and the escape
keyword passed for like / ilike. -/
structure QFilter where
  columnName : String
  opMethod : String
  arg : Option String
  escape : Option String
deriving DecidableEq, Repr

/-- The value of session.query(*select_columns).filter(_filter). -/
structure Query where
  selectColumns : List String
  filter : QFilter
deriving DecidableEq, Repr

/-- PQSQueryUI.generate_query (query.py lines 589-619).  modelColumns is
self._columns, tableColumns the table model's columns (step 0), columnId
and operatorId the two combo box indices, queryValue the raw text of the
query input.  Python list indexing raises IndexError out of range, hence
the Option result.  Step 3 wraps the value in percent wildcards for like /
ilike when it contains none; step 4 builds the filter: a unary comparison
against None for is-null / is-not-null (the raw value is dropped), the
wrapped value with escape "/" for like / ilike, the raw value otherwise. -/
def generate_query (modelColumns tableColumns : List String)
    (columnId operatorId : Nat) (queryValue : String) : Option Query :=
  match modelColumns.get? columnId, moduleRegistry.listing.get? operatorId with
  | Option.some columnName, Option.some operatorObj =>
      let queryValue1 :=
        if operatorId = PQSOperatorLike.id ∨ operatorId = PQSOperatorILike.id then
          if strContainsChar queryValue (Char.ofNat 37) then queryValue
          else "%" ++ queryValue ++ "%"
        else queryValue
      let f : QFilter :=
        if operatorId = PQSOperatorIsNull.id ∨ operatorId = PQSOperatorIsNotNull.id then
          { columnName := columnName, opMethod := operatorObj.opMethod,
            arg := Option.none, escape := Option.none }
        else if operatorId = PQSOperatorLike.id ∨ operatorId = PQSOperatorILike.id then
          { columnName := columnName, opMethod := operatorObj.opMethod,
            arg := Option.some queryValue1, escape := Option.some "/" }
        else
          { columnName := columnName, opMethod := operatorObj.opMethod,
            arg := Option.some queryValue1, escape := Option.none }
      Option.some { selectColumns := tableColumns, filter := f }
  | _, _ => Option.none

/-! ## Concrete fixtures

Line-edit binders over the sample User model's validators, used to
evaluate the embedded operations at concrete inputs. -/

/-- A non-disabled line-edit binder with a mandatory-field validator
(User.email), bound state: empty widget, previously invalid field. -/
def bC3 : Binder String :=
  { chan := lineEditChannel false, validator := validate_email, disabled := false,
    hasSaveSignal := true, resetValue := PyValue.none }

def sC3 : BState String :=
  { modelValue := PyValue.str "a@b", gui := "", mark := Mark.invalid,
    autoupdate := true, autoupdateConnected := false, saveConnected := false,
    editEnabled := true, events := [] }

/-- A permanently disabled line-edit binder and its constructed state. -/
def bW6 : Binder String :=
  { chan := lineEditChannel true, validator := validate_email, disabled := true,
    hasSaveSignal := true, resetValue := PyValue.none }

def sW6 : BState String :=
  { modelValue := PyValue.none, gui := DISABLED_MESSAGE, mark := Mark.unmarked,
    autoupdate := true, autoupdateConnected := false, saveConnected := false,
    editEnabled := false, events := [] }

/-- A line-edit binder accepting every value; the model holds the empty
string, which the line edit displays as empty text and reads back as None. -/
def bC9 : Binder String :=
  { chan := lineEditChannel false, validator := acceptAll, disabled := false,
    hasSaveSignal := true, resetValue := PyValue.none }

def sC9 : BState String :=
  { modelValue := PyValue.str "", gui := "x", mark := Mark.unmarked,
    autoupdate := true, autoupdateConnected := false, saveConnected := false,
    editEnabled := true, events := [] }

/-- A line-edit binder accepting every value, with a nonempty model string
that the widget reads back unchanged. -/
def bW9 : Binder String :=
  { chan := lineEditChannel false, validator := acceptAll, disabled := false,
    hasSaveSignal := true, resetValue := PyValue.none }

def sW9 : BState String :=
  { modelValue := PyValue.str "ok", gui := "", mark := Mark.unmarked,
    autoupdate := true, autoupdateConnected := false, saveConnected := false,
    editEnabled := true, events := [] }

/-- A line-edit binder accepting every value with an empty widget: its
gui_value is None. -/
def bC10 : Binder String :=
  { chan := lineEditChannel false, validator := acceptAll, disabled := false,
    hasSaveSignal := true, resetValue := PyValue.none }

def sC10 : BState String :=
  { modelValue := PyValue.str "x", gui := "", mark := Mark.unmarked,
    autoupdate := true, autoupdateConnected := false, saveConnected := false,
    editEnabled := true, events := [] }

/-- An editor with one mandatory email field whose widget holds text
without the required at sign, so its update() fails. -/
def bW1 : Binder String :=
  { chan := lineEditChannel false, validator := validate_email, disabled := false,
    hasSaveSignal := true, resetValue := PyValue.none }

def sW1 : BState String :=
  { modelValue := PyValue.none, gui := "no-at-sign", mark := Mark.unmarked,
    autoupdate := true, autoupdateConnected := false, saveConnected := false,
    editEnabled := true, events := [] }

def edW1 : EditorState String :=
  { binders := [(bW1, sW1)], ops := [], statusDeleted := false,
    commitRaises := false, statusUpdates := 0 }

/-- An editor whose session commit raises. -/
def edC2 : EditorState String :=
  { binders := [], ops := [], statusDeleted := false, commitRaises := true,
    statusUpdates := 0 }

/-- Editors for exercising both commit branches. -/
def edW2f : EditorState String :=
  { binders := [], ops := [SessionOp.add], statusDeleted := false,
    commitRaises := true, statusUpdates := 0 }

def edW2s : EditorState String :=
  { binders := [], ops := [SessionOp.add], statusDeleted := false,
    commitRaises := false, statusUpdates := 0 }

/-- An editor with one accepting binder holding a valid model value. -/
def bC5 : Binder String :=
  { chan := lineEditChannel false, validator := acceptAll, disabled := false,
    hasSaveSignal := true, resetValue := PyValue.none }

def sC5 : BState String :=
  { modelValue := PyValue.str "a", gui := "", mark := Mark.unmarked,
    autoupdate := true, autoupdateConnected := false, saveConnected := false,
    editEnabled := true, events := [] }

def edC5 : EditorState String :=
  { binders := [(bC5, sC5)], ops := [], statusDeleted := false,
    commitRaises := false, statusUpdates := 0 }

/-! ## Helper lemmas -/

lemma like_id : PQSOperatorLike.id = 0 := rfl

lemma ilike_id : PQSOperatorILike.id = 1 := rfl

lemma isNull_id : PQSOperatorIsNull.id = 10 := rfl

lemma isNotNull_id : PQSOperatorIsNotNull.id = 11 := rfl

lemma listing_get_0 : moduleRegistry.listing.get? 0 = Option.some PQSOperatorLike := rfl

lemma listing_get_1 : moduleRegistry.listing.get? 1 = Option.some PQSOperatorILike := rfl

lemma listing_get_10 : moduleRegistry.listing.get? 10 = Option.some PQSOperatorIsNull := rfl

lemma listing_get_11 : moduleRegistry.listing.get? 11 = Option.some PQSOperatorIsNotNull := rfl

lemma isNull_method : PQSOperatorIsNull.opMethod = "is_" := rfl

lemma isNotNull_method : PQSOperatorIsNotNull.opMethod = "isnot" := rfl

lemma like_method : PQSOperatorLike.opMethod = "like" := rfl

lemma ilike_method : PQSOperatorILike.opMethod = "ilike" := rfl

/-- Evaluates generate_query for the is-null operator (id 10) when the
column index is in range: the filter is the unary comparison against None,
whatever the raw input value was. -/
lemma generate_query_isNull (mc tc : List String) (cid : Nat) (v : String)
    (h : cid < mc.length) :
    generate_query mc tc cid 10 v =
      Option.some { selectColumns := tc, filter :=
        { columnName := mc.get ⟨cid, h⟩, opMethod := "is_",
          arg := Option.none, escape := Option.none } } := by
  unfold generate_query
  rw [List.get?_eq_get h]
  simp only [listing_get_10, like_id, ilike_id, isNull_id, isNotNull_id, isNull_method]
  norm_num

/-- Evaluates generate_query for the is-not-null operator (id 11). -/
lemma generate_query_isNotNull (mc tc : List String) (cid : Nat) (v : String)
    (h : cid < mc.length) :
    generate_query mc tc cid 11 v =
      Option.some { selectColumns := tc, filter :=
        { columnName := mc.get ⟨cid, h⟩, opMethod := "isnot",
          arg := Option.none, escape := Option.none } } := by
  unfold generate_query
  rw [List.get?_eq_get h]
  simp only [listing_get_11, like_id, ilike_id, isNull_id, isNotNull_id, isNotNull_method]
  norm_num

/-- Evaluates generate_query for the like operator (id 0) on a value
without a percent wildcard: the value is wrapped before filtering. -/
lemma generate_query_like (mc tc : List String) (cid : Nat) (v : String)
    (h : cid < mc.length) (hv : strContainsChar v (Char.ofNat 37) = false) :
    generate_query mc tc cid 0 v =
      Option.some { selectColumns := tc, filter :=
        { columnName := mc.get ⟨cid, h⟩, opMethod := "like",
          arg := Option.some ("%" ++ v ++ "%"), escape := Option.some "/" } } := by
  unfold generate_query
  rw [List.get?_eq_get h]
  simp only [listing_get_0, like_id, ilike_id, isNull_id, isNotNull_id, like_method]
  norm_num [hv]

/-- Evaluates generate_query for the ilike operator (id 1) on a value
without a percent wildcard. -/
lemma generate_query_ilike (mc tc : List String) (cid : Nat) (v : String)
    (h : cid < mc.length) (hv : strContainsChar v (Char.ofNat 37) = false) :
    generate_query mc tc cid 1 v =
      Option.some { selectColumns := tc, filter :=
        { columnName := mc.get ⟨cid, h⟩, opMethod := "ilike",
          arg := Option.some ("%" ++ v ++ "%"), escape := Option.some "/" } } := by
  unfold generate_query
  rw [List.get?_eq_get h]
  simp only [listing_get_1, like_id, ilike_id, isNull_id, isNotNull_id, ilike_method]
  norm_num [hv]

/-! ## Claim theorems -/

/-- C1: for a save on a domain object whose status is not Deleted, if any
binder's update() returns false the session sees no call at all — in
particular commit() is never invoked, so there is no partial commit — and
save raises the distinct PQSFormFieldsNotValidError; when every binder's
update() returns true, save adds the model and attempts the commit
(followed by a rollback exactly when the commit fails). -/
theorem save_all_or_nothing {γ : Type} (ed : EditorState γ)
    (h : ed.statusDeleted = false) :
    (ed.binders.all updOk = false →
      (save_ed ed).1 = Option.some PQSError.formFieldsNotValid ∧
      (save_ed ed).2.ops = ed.ops) ∧
    (ed.binders.all updOk = true →
      (save_ed ed).1 = Option.none ∧
      (save_ed ed).2.ops = (ed.ops ++ [SessionOp.add, SessionOp.commit]) ++
        (if ed.commitRaises then [SessionOp.rollback] else [])) := by
  constructor
  · intro hv
    simp [save_ed, h, hv]
  · intro hv
    by_cases hr : ed.commitRaises <;>
      simp [save_ed, h, hv, commit_ed, logOp, update_status, edUpdateToGui, hr]

/-- C1 witness: a concrete editor with one mandatory email binder whose
widget text lacks the at sign: save raises the form-invalid error and the
session log is untouched. -/
theorem save_all_or_nothing_witness :
    edW1.statusDeleted = false ∧ edW1.binders.all updOk = false ∧
    (save_ed edW1).1 = Option.some PQSError.formFieldsNotValid ∧
    (save_ed edW1).2.ops = edW1.ops :=
  ⟨rfl, by decide, ((save_all_or_nothing edW1 rfl).1 (by decide)).1,
    ((save_all_or_nothing edW1 rfl).1 (by decide)).2⟩

/-- C2 counterexample: on a session whose commit raises, commit() returns
normally — no error reaches the caller (first component none), the
exception having been swallowed after the rollback — contrary to the
claim that the error is re-surfaced as a storage error. -/
theorem commit_failure_not_surfaced :
    edC2.commitRaises = true ∧
    (commit_ed edC2).1 = Option.none ∧
    (commit_ed edC2).2.ops = [SessionOp.commit, SessionOp.rollback] := by decide

/-- C2 amended: commit() never re-raises: when the session commit raises,
the editor rolls back and swallows the error; when it succeeds, every
field is reloaded into the GUI from the model without re-validating (mark
not-validated, no validator hooks fired, model untouched); in both cases
the status is recomputed once. -/
theorem commit_swallows_and_reloads {γ : Type} (ed : EditorState γ) :
    (commit_ed ed).1 = Option.none ∧
    (ed.commitRaises = true →
      (commit_ed ed).2.ops = ed.ops ++ [SessionOp.commit, SessionOp.rollback] ∧
      (commit_ed ed).2.binders = ed.binders ∧
      (commit_ed ed).2.statusUpdates = ed.statusUpdates + 1) ∧
    (ed.commitRaises = false →
      (commit_ed ed).2.ops = ed.ops ++ [SessionOp.commit] ∧
      (commit_ed ed).2.binders = ed.binders.map binderReloadSkip ∧
      (commit_ed ed).2.statusUpdates = ed.statusUpdates + 1) ∧
    (∀ p : Binder γ × BState γ,
      (binderReloadSkip p).2.mark = Mark.notValidated ∧
      (binderReloadSkip p).2.events = p.2.events ∧
      (binderReloadSkip p).2.modelValue = p.2.modelValue ∧
      (binderReloadSkip p).2.gui = p.1.chan.set p.2.modelValue p.2.gui) := by
  refine ⟨?_, ?_, ?_, ?_⟩
  · unfold commit_ed
    by_cases hr : ed.commitRaises <;> simp [hr]
  · intro hr
    simp [commit_ed, logOp, update_status, edUpdateToGui, hr]
  · intro hr
    simp [commit_ed, logOp, update_status, edUpdateToGui, hr]
  · intro p
    unfold binderReloadSkip update_to_gui
    by_cases hd : p.1.disabled <;>
      simp [disable, disable_edit, disable_autoupdate, enable, enable_edit,
            enable_autoupdate, hd]

/-- C2 witness: both branches at concrete editors — the failing session
yields no surfaced error and logs commit then rollback; the succeeding
session logs only the commit. -/
theorem commit_swallows_and_reloads_witness :
    (commit_ed edW2f).1 = Option.none ∧
    (commit_ed edW2f).2.ops = edW2f.ops ++ [SessionOp.commit, SessionOp.rollback] ∧
    (commit_ed edW2s).2.ops = edW2s.ops ++ [SessionOp.commit] :=
  ⟨(commit_swallows_and_reloads edW2f).1,
   ((commit_swallows_and_reloads edW2f).2.1 rfl).1,
   ((commit_swallows_and_reloads edW2s).2.2.1 rfl).1⟩

/-- C3: reset() never reports the on_reset_fail hook — the model_value
setter routes through update, which swallows the validator's exception,
so the except branch of reset is dead code: after the single update event
(on_valid or on_invalid), on_reset_success and then on_reset are always
reported.  At the concrete failing input — a mandatory email field with
an empty line edit, where the default reset value None is substituted by
the gui value None and rejected — the field is marked invalid and the
model value unchanged, yet reset still reports on_reset_success. -/
theorem reset_never_reports_fail {γ : Type} :
    (∀ (b : Binder γ) (s : BState γ), ∃ e : BEvent,
      (e = BEvent.onValid ∨ e = BEvent.onInvalid) ∧
      (reset b s).events = s.events ++ [e, BEvent.onResetSuccess, BEvent.onReset]) ∧
    (reset bC3 sC3).events =
      [BEvent.onInvalid, BEvent.onResetSuccess, BEvent.onReset] ∧
    (reset bC3 sC3).mark = Mark.invalid ∧
    (reset bC3 sC3).modelValue = sC3.modelValue := by
  refine ⟨?_, by decide, by decide, by decide⟩
  intro b s
  cases hv : b.validator
      (if b.resetValue = PyValue.none then b.chan.get s.gui else b.resetValue) with
  | none =>
      refine ⟨BEvent.onInvalid, Or.inr rfl, ?_⟩
      simp [reset, set_model_value, update, hv, logEvent]
  | some u =>
      refine ⟨BEvent.onValid, Or.inl rfl, ?_⟩
      simp [reset, set_model_value, update, hv, logEvent]

/-- C4: with an explicit binder list supplied by the form descriptor,
lookup_binders always raises TypeError: validate_binders is declared a
classmethod whose single parameter receives the class, so passing the
list is an extra positional argument; the list is never validated against
the binder contract nor used as the editor's binder collection. -/
theorem lookup_explicit_binders_raises :
    ∀ (bs : List Bool) (f : String → Bool) (attrs : List FormAttr),
      lookup_binders false (Option.some bs) f attrs =
        LookupResult.raised PQSError.typeError :=
  fun _ _ _ => rfl

/-- C5 counterexample: validate() on an editor with one accepting binder
leaves the field marked valid, not not-validated — update_to_gui(False)
re-validates each field through update() instead of marking it
not-validated. -/
theorem validate_marks_validated_counterexample :
    (validate_ed edC5).binders.map (fun p => p.2.mark) = [Mark.valid] ∧
    (validate_ed edC5).ops = edC5.ops := by decide

/-- C5 amended: validate() re-pushes each model value into the GUI and
re-validates it — each field ends marked valid or invalid according to
its validator on the re-read displayed value — and performs no session
operation (the session log is unchanged). -/
theorem validate_refreshes_without_session {γ : Type} (ed : EditorState γ) :
    (validate_ed ed).ops = ed.ops ∧
    (validate_ed ed).binders = ed.binders.map binderRevalidate ∧
    (∀ p : Binder γ × BState γ,
      (binderRevalidate p).2.gui = p.1.chan.set p.2.modelValue p.2.gui ∧
      (binderRevalidate p).2.mark =
        (if (p.1.validator (p.1.chan.get (p.1.chan.set p.2.modelValue p.2.gui))).isSome
         then Mark.valid else Mark.invalid)) := by
  refine ⟨rfl, by simp [validate_ed, edUpdateToGui], ?_⟩
  intro p
  unfold binderRevalidate update_to_gui update
  by_cases hd : p.1.disabled <;>
    cases hv : p.1.validator (p.1.chan.get (p.1.chan.set p.2.modelValue p.2.gui)) <;>
    simp [disable, disable_edit, disable_autoupdate, enable, enable_edit,
          enable_autoupdate, logEvent, hd, hv]

/-- C6: a binder whose disabled flag is true is inert: every later
enable, disable, enable_autoupdate, disable_autoupdate,
connect_autoupdate, disconnect_autoupdate, connect_save, disconnect_save,
enable_edit and disable_edit call is the identity on its state; and a
binder constructed with disabled=True ends with autoupdate never
connected, save never connected and edit disabled, regardless of the
other constructor arguments. -/
theorem disabled_binder_inert {γ : Type} (b : Binder γ) (s : BState γ)
    (h : b.disabled = true) :
    enable b s = s ∧ disable b s = s ∧
    enable_autoupdate b s = s ∧ disable_autoupdate b s = s ∧
    connect_autoupdate b s = s ∧ disconnect_autoupdate b s = s ∧
    connect_save b s = s ∧ disconnect_save b s = s ∧
    enable_edit b s = s ∧ disable_edit b s = s ∧
    (∀ (chan : Channel γ) (validator : PyValue → Option PyValue)
       (hasSig ro au cAu cSv : Bool) (g0 : γ) (m0 : PyValue),
      (mkBinder chan validator hasSig ro (Option.some true) au cAu cSv g0 m0).1.disabled
        = true ∧
      (mkBinder chan validator hasSig ro (Option.some true) au cAu cSv g0 m0).2.autoupdateConnected
        = false ∧
      (mkBinder chan validator hasSig ro (Option.some true) au cAu cSv g0 m0).2.saveConnected
        = false ∧
      (mkBinder chan validator hasSig ro (Option.some true) au cAu cSv g0 m0).2.editEnabled
        = false) := by
  refine ⟨?_, ?_, ?_, ?_, ?_, ?_, ?_, ?_, ?_, ?_, ?_⟩
  · simp [enable, h]
  · simp [disable, h]
  · simp [enable_autoupdate, h]
  · simp [disable_autoupdate, h]
  · simp [connect_autoupdate, h]
  · simp [disconnect_autoupdate, h]
  · simp [connect_save, h]
  · simp [disconnect_save, h]
  · simp [enable_edit, h]
  · simp [disable_edit, h]
  · intro chan validator hasSig ro au cAu cSv g0 m0
    refine ⟨rfl, ?_, ?_, ?_⟩ <;>
      simp [mkBinder, connect_autoupdate, connect_save]

/-- C6 witness: the no-op equations at a concrete disabled binder. -/
theorem disabled_binder_inert_witness :
    enable bW6 sW6 = sW6 ∧ disable bW6 sW6 = sW6 ∧
    enable_autoupdate bW6 sW6 = sW6 ∧ disable_autoupdate bW6 sW6 = sW6 ∧
    connect_autoupdate bW6 sW6 = sW6 ∧ connect_save bW6 sW6 = sW6 :=
  ⟨(disabled_binder_inert bW6 sW6 rfl).1,
   (disabled_binder_inert bW6 sW6 rfl).2.1,
   (disabled_binder_inert bW6 sW6 rfl).2.2.1,
   (disabled_binder_inert bW6 sW6 rfl).2.2.2.1,
   (disabled_binder_inert bW6 sW6 rfl).2.2.2.2.1,
   (disabled_binder_inert bW6 sW6 rfl).2.2.2.2.2.2.1⟩

/-- C7: operator ids equal registration positions with no gaps (the id
sequence of the module registry is exactly 0..11 in definition order),
distinct operators have distinct ids, and registering never changes or
reuses an id: a new registration keeps the existing listing as a prefix,
assigns the fresh id equal to the current length, and appends it after
all existing ids. -/
theorem operator_ids_stable :
    moduleRegistry.listing.map OpClass.id = List.range moduleRegistry.listing.length ∧
    (∀ i j : Fin moduleRegistry.listing.length, i ≠ j →
      (moduleRegistry.listing.get i).id ≠ (moduleRegistry.listing.get j).id) ∧
    (∀ (r : OperatorRegistry) (cn nm op : String),
      (registerOperator r cn nm op).1.listing.take r.listing.length = r.listing ∧
      (registerOperator r cn nm op).2.id = r.listing.length ∧
      (registerOperator r cn nm op).1.listing.map OpClass.id =
        r.listing.map OpClass.id ++ [r.listing.length]) := by
  refine ⟨by decide, by decide, ?_⟩
  intro r cn nm op
  exact ⟨List.take_left r.listing _, rfl, by simp [registerOperator]⟩

/-- C7 witness: two distinct registered operators with distinct ids. -/
theorem operator_ids_stable_witness :
    (moduleRegistry.listing.get ⟨0, by decide⟩).id ≠
      (moduleRegistry.listing.get ⟨1, by decide⟩).id :=
  (operator_ids_stable).2.1 ⟨0, by decide⟩ ⟨1, by decide⟩ (by decide)

/-- C8: generate_query ignores the raw input value for is-null and
is-not-null — the generated query is the same for any two raw values and
its filter is the unary comparison against None — and for like / ilike it
wraps a raw value containing no percent wildcard in percent markers. -/
theorem generate_query_special_cases (mc tc : List String) (cid : Nat)
    (h : cid < mc.length) (v w : String) :
    (generate_query mc tc cid PQSOperatorIsNull.id v =
      generate_query mc tc cid PQSOperatorIsNull.id w) ∧
    (generate_query mc tc cid PQSOperatorIsNotNull.id v =
      generate_query mc tc cid PQSOperatorIsNotNull.id w) ∧
    (∀ q, generate_query mc tc cid PQSOperatorIsNull.id v = Option.some q →
      q.filter.arg = Option.none ∧ q.filter.opMethod = "is_") ∧
    (∀ q, generate_query mc tc cid PQSOperatorIsNotNull.id v = Option.some q →
      q.filter.arg = Option.none ∧ q.filter.opMethod = "isnot") ∧
    (strContainsChar v (Char.ofNat 37) = false →
      (∀ q, generate_query mc tc cid PQSOperatorLike.id v = Option.some q →
        q.filter.arg = Option.some ("%" ++ v ++ "%")) ∧
      (∀ q, generate_query mc tc cid PQSOperatorILike.id v = Option.some q →
        q.filter.arg = Option.some ("%" ++ v ++ "%"))) := by
  rw [isNull_id, isNotNull_id, like_id, ilike_id]
  refine ⟨?_, ?_, ?_, ?_, ?_⟩
  · rw [generate_query_isNull mc tc cid v h, generate_query_isNull mc tc cid w h]
  · rw [generate_query_isNotNull mc tc cid v h, generate_query_isNotNull mc tc cid w h]
  · intro q hq
    rw [generate_query_isNull mc tc cid v h] at hq
    cases hq
    exact ⟨rfl, rfl⟩
  · intro q hq
    rw [generate_query_isNotNull mc tc cid v h] at hq
    cases hq
    exact ⟨rfl, rfl⟩
  · intro hv
    constructor
    · intro q hq
      rw [generate_query_like mc tc cid v h hv] at hq
      cases hq
      rfl
    · intro q hq
      rw [generate_query_ilike mc tc cid v h hv] at hq
      cases hq
      rfl

/-- C8 witness: on the birthdate column, the is-null query is the same
whether the user typed text or nothing. -/
theorem generate_query_special_cases_witness :
    (0 : Nat) < (["birthdate"] : List String).length ∧
    strContainsChar "typed" (Char.ofNat 37) = false ∧
    generate_query ["birthdate"] ["birthdate"] 0 PQSOperatorIsNull.id "typed" =
      generate_query ["birthdate"] ["birthdate"] 0 PQSOperatorIsNull.id "" :=
  ⟨by decide, by decide,
    (generate_query_special_cases ["birthdate"] ["birthdate"] 0 (by decide)
      "typed" "").1⟩

/-- C9 counterexample: an empty-string model value is displayed as empty
text, which the line edit reads back as None: updateToGui followed by
update turns the model value from the empty string into None, so the
round-trip does not reproduce the original model value. -/
theorem roundtrip_counterexample :
    sC9.modelValue = PyValue.str "" ∧
    (update bC9 (update_to_gui bC9 sC9) PyValue.none).2.modelValue = PyValue.none ∧
    ¬ (update bC9 (update_to_gui bC9 sC9) PyValue.none).2.modelValue
        = sC9.modelValue := by decide

/-- C9 amended: the round-trip updateToGui-then-update reproduces the
original model value exactly when the channel reads the displayed value
back as that value and the validator maps it to itself or rejects it; for
the line-edit channel the read-back condition holds for every nonempty
string other than the disabled placeholder, but fails for the empty
string, which reads back as None. -/
theorem roundtrip_conditional {γ : Type} :
    (∀ (b : Binder γ) (s : BState γ),
      b.chan.get (b.chan.set s.modelValue s.gui) = s.modelValue →
      (∀ u, b.validator s.modelValue = Option.some u → u = s.modelValue) →
      (update b (update_to_gui b s) PyValue.none).2.modelValue = s.modelValue) ∧
    (∀ (d : Bool) (t x : String), x ≠ "" → x ≠ DISABLED_MESSAGE →
      lineEditGet (lineEditSet d (PyValue.str x) t) = PyValue.str x) ∧
    lineEditGet (lineEditSet false (PyValue.str "") "x") = PyValue.none := by
  refine ⟨?_, ?_, by decide⟩
  · intro b s hget hval
    unfold update_to_gui update
    simp only [if_pos rfl, hget]
    cases hv : b.validator s.modelValue with
    | none => simp [hv, logEvent]
    | some u => simp [hv, logEvent, hval u hv]
  · intro d t x hx1 hx2
    have hlen : x.length ≠ 0 := fun h0 => hx1 (String.ext (List.length_eq_zero.mp h0))
    simp [lineEditSet, lineEditGet, hlen, hx2]

/-- C9 witness: a nonempty model string round-trips through the line-edit
channel unchanged. -/
theorem roundtrip_conditional_witness :
    (update bW9 (update_to_gui bW9 sW9) PyValue.none).2.modelValue = sW9.modelValue :=
  (@roundtrip_conditional String).1 bW9 sW9 (by decide)
    (fun u hu => by
      simp [bW9, sW9, acceptAll] at hu
      exact hu.symm)

/-- C10 counterexample: with an empty line edit (gui value None), update()
with value None assigns None to the model attribute — refuting that None
can never be directly assigned through update. -/
theorem update_none_counterexample :
    sC10.gui = "" ∧ sC10.modelValue = PyValue.str "x" ∧
    (update bC10 sC10 PyValue.none).1 = true ∧
    (update bC10 sC10 PyValue.none).2.modelValue = PyValue.none := by decide

/-- C10 amended: update with value None substitutes the channel's current
value — it behaves exactly like update on the channel value, and the
model_value setter likewise — so the value reaching the model assignment
is always the channel's current value, which may itself be None: the
model attribute becomes the validator's normalization of the channel
value when accepted, and stays unchanged when rejected. -/
theorem update_none_substitutes {γ : Type} (b : Binder γ) (s : BState γ) :
    update b s PyValue.none = update b s (b.chan.get s.gui) ∧
    set_model_value b s PyValue.none = (update b s (b.chan.get s.gui)).2 ∧
    (update b s PyValue.none).2.modelValue =
      (match b.validator (b.chan.get s.gui) with
       | Option.some u => u
       | Option.none => s.modelValue) := by
  have h1 : update b s PyValue.none = update b s (b.chan.get s.gui) := by
    unfold update
    by_cases hg : b.chan.get s.gui = PyValue.none
    · simp [hg]
    · simp [hg]
  refine ⟨h1, by rw [set_model_value, h1], ?_⟩
  rw [h1]
  unfold update
  by_cases hg : b.chan.get s.gui = PyValue.none
  · simp only [hg, if_pos rfl]
    cases hv : b.validator PyValue.none
    · simp [hv, logEvent]
    · simp [hv, logEvent]
  · simp only [if_neg hg]
    cases hv : b.validator (b.chan.get s.gui)
    · simp [hv, logEvent]
    · simp [hv, logEvent]

end PQS
